import Mathlib

/-!
Verification of the code-submission judge in `app.py` (`run_tests` and
`run_single_test`).

The judge is effectful: it writes a temporary source file, spawns a child
process, and classifies the outcome. We embed it shallowly: the outcome of
each effect (temporary-file write, process execution) is supplied by an
explicit environment, and `run_single_test` is a pure function of its
arguments and that environment. The branching, the classification of the
captured output, the verdict records and the composed source text are
translated directly from `app.py`.
-/

/-- A test case as consumed by `run_single_test`: the dict
`{input, expected, hidden}` read from the problem definition. -/
structure TestCase where
  input : String
  expected : String
  hidden : Bool
deriving Repr, DecidableEq

/-- The verdict dict returned by `run_single_test`:
`{passed: ..., message: ..., hidden: ...}`. -/
structure TestResult where
  passed : Bool
  message : String
  hidden : Bool
deriving Repr, DecidableEq

/-- Outcome of the temporary-file creation step
(`tempfile.NamedTemporaryFile(...)` followed by `f.write(full_code)` and
`temp_path = f.name`, app.py lines 107-109):
either the file is created, written and its path recorded (`ok`), or the
construction of the temporary file raises so no file exists on disk
(`errNoFile`), or the file is created but writing its content raises, so
the exception propagates before `temp_path` is assigned
(`errAfterCreate`). -/
inductive FileWriteOutcome where
  | ok (path : String)
  | errNoFile (msg : String)
  | errAfterCreate (path : String) (msg : String)
deriving Repr, DecidableEq

/-- Outcome of `subprocess.run(["python3", temp_path], capture_output=True,
text=True, timeout=5)` (app.py lines 112-117): normal exit with captured
stdout and stderr, `subprocess.TimeoutExpired` carrying whatever partial
output the child produced, or some other exception (e.g. the interpreter
binary cannot be spawned). -/
inductive ProcOutcome where
  | completed (stdout : String) (stderr : String)
  | timedOut (partialOut : String) (partialErr : String)
  | spawnErr (msg : String)
deriving Repr, DecidableEq

/-- The ambient world of one `run_single_test` call: what happens when the
composed source text is written to a temporary file, and what happens when
the interpreter is run on the resulting path with a given timeout in
seconds. -/
structure Env where
  fileWrite : String → FileWriteOutcome
  proc : String → Nat → ProcOutcome

/-- The wall-clock limit passed to `subprocess.run` (app.py line 116). -/
def timeout_seconds : Nat := 5

/-- Observable file-system effects of one `run_single_test` call: the path
of the temporary file that was created on disk (if any), and the path that
was passed to `os.unlink` in the `finally` block (if any). -/
structure RunEffects where
  createdFile : Option String
  deletedFile : Option String
deriving Repr, DecidableEq

/-- Python default whitespace for `str.strip`. -/
def isPySpace (c : Char) : Bool :=
  c = ' ' || c = '\t' || c = '\n' || c = '\r' || c = '\x0b' || c = '\x0c'

/-- Python `str.strip()` with no argument: remove leading and trailing
whitespace. Defined over the character list so that it evaluates inside
the kernel. -/
def pyStrip (s : String) : String :=
  ⟨((s.toList.dropWhile isPySpace).reverse.dropWhile isPySpace).reverse⟩

/-- Python `str.startswith(p)`: the characters of `p` are a prefix of the
characters of `s`. -/
def pyStartsWith (s p : String) : Bool :=
  p.toList.isPrefixOf s.toList

/-- The composed executable unit `full_code` (app.py lines 89-104): the
setup code, then the candidate code, then a fixed trailer that evaluates
the input expression and the expected expression as Python code, asserts
their equality, and prints a PASS / FAIL / ERROR marker. The literal
braces of the inner f-strings are written with escapes. -/
def compose (setup_code code : String) (test : TestCase) : String :=
  "\n" ++ setup_code ++ "\n\n" ++ code ++
  "\n\n# Test execution\ntry:\n    result = " ++ test.input ++
  "\n    expected = " ++ test.expected ++
  "\n    assert result == expected, f\"Expected \x7bexpected\x7d, got \x7bresult\x7d\"\n    print(\"PASS\")\nexcept AssertionError as e:\n    print(f\"FAIL: \x7be\x7d\")\nexcept Exception as e:\n    print(f\"ERROR: \x7be\x7d\")\n"

/-- `run_single_test` (app.py lines 87-135) together with its file-system
effects. The `try` body writes the composed code to a temporary file and
runs the interpreter on it; `except subprocess.TimeoutExpired` returns the
fixed timeout verdict; `except Exception as e` returns a verdict whose
message is the exception text; the `finally` block unlinks `temp_path`
when (and only when) that local variable was assigned. Classification of a
normal exit: `output = result.stdout.strip()`, `error =
result.stderr.strip()`; PASS marker at the start of `output` gives a
passed verdict, FAIL marker gives a failed verdict carrying `output`,
anything else gives a failed verdict carrying `error or output or
"Unknown error"`. -/
def run_single_test_full (code : String) (test : TestCase)
    (setup_code : String) (env : Env) : TestResult × RunEffects :=
  match env.fileWrite (compose setup_code code test) with
  | .errNoFile msg =>
      (⟨false, msg, test.hidden⟩, ⟨none, none⟩)
  | .errAfterCreate path msg =>
      (⟨false, msg, test.hidden⟩, ⟨some path, none⟩)
  | .ok temp_path =>
      match env.proc temp_path timeout_seconds with
      | .completed stdout stderr =>
          let output := pyStrip stdout
          let error := pyStrip stderr
          let r : TestResult :=
            if pyStartsWith output "PASS" then
              ⟨true, "Test passed", test.hidden⟩
            else if pyStartsWith output "FAIL" then
              ⟨false, output, test.hidden⟩
            else
              ⟨false,
                if error ≠ "" then error
                else if output ≠ "" then output
                else "Unknown error",
                test.hidden⟩
          (r, ⟨some temp_path, some temp_path⟩)
      | .timedOut _ _ =>
          (⟨false, "Timeout: Code took too long to execute", test.hidden⟩,
            ⟨some temp_path, some temp_path⟩)
      | .spawnErr msg =>
          (⟨false, msg, test.hidden⟩, ⟨some temp_path, some temp_path⟩)

/-- The verdict component of `run_single_test`. -/
def run_single_test (code : String) (test : TestCase)
    (setup_code : String) (env : Env) : TestResult :=
  (run_single_test_full code test setup_code env).1

/-- The result dict of `run_tests`:
`{all_passed: ..., test_results: [...]}`. -/
structure RunTestsResult where
  all_passed : Bool
  test_results : List TestResult
deriving Repr, DecidableEq

/-- The loop body of `run_tests` (app.py lines 79-84), carrying the
`enumerate` index so that each iteration runs against its own process
environment `envs i`. `all_passed` is set to `False` when a test result
did not pass, and the test result is appended positionally. -/
def run_tests_loop (code setup_code : String) (envs : Nat → Env) :
    Nat → List TestCase → RunTestsResult → RunTestsResult
  | _, [], results => results
  | i, test :: rest, results =>
      let test_result := run_single_test code test setup_code (envs i)
      run_tests_loop code setup_code envs (i + 1) rest
        ⟨if !test_result.passed then false else results.all_passed,
          results.test_results ++ [test_result]⟩

/-- `run_tests` (app.py lines 73-85): start from
`{all_passed: True, test_results: []}` and fold the loop body over the
test list in order. -/
def run_tests (code : String) (tests : List TestCase)
    (setup_code : String) (envs : Nat → Env) : RunTestsResult :=
  run_tests_loop code setup_code envs 0 tests ⟨true, []⟩

/-- A Python exception as observed by the trailer of the composed unit:
the two `except` clauses distinguish `AssertionError` from every other
exception class. -/
inductive PyExn where
  | assertionError (msg : String)
  | otherError (msg : String)
deriving Repr, DecidableEq

/-- A small universe of Python values for the trailer semantics. -/
inductive PyVal where
  | int (n : Int)
  | bool (b : Bool)
  | str (s : String)
  | none
deriving Repr, DecidableEq

/-- Python `==` on the modelled values: numeric equality identifies
`bool` with the corresponding `int` (Python `True == 1`), values of
unrelated types compare unequal. -/
def pyEq : PyVal → PyVal → Bool
  | .int a, .int b => a == b
  | .bool a, .bool b => a == b
  | .int a, .bool b => a == (if b then (1 : Int) else 0)
  | .bool a, .int b => (if a then (1 : Int) else 0) == b
  | .str a, .str b => a == b
  | .none, .none => true
  | _, _ => false

/-- Python `str()` of the modelled values, as used by f-string
interpolation in the assertion message. -/
def pyStr : PyVal → String
  | .int n => toString n
  | .bool b => if b then "True" else "False"
  | .str s => s
  | .none => "None"

/-- Semantics of the trailer embedded by `compose` (app.py lines 95-103),
given an evaluator for Python expressions in the scope established by the
setup and candidate code. `result = {input}` is evaluated first, then
`expected = {expected}`; an `AssertionError` raised anywhere in the `try`
body is printed as `FAIL: {e}`, any other exception as `ERROR: {e}`;
otherwise `assert result == expected` raises with message
`Expected {expected}, got {result}` when the values compare unequal, and
`PASS` is printed when they compare equal. The returned string is the
stripped standard output of the trailer. -/
def trailer_sem (evalExpr : String → Except PyExn PyVal)
    (input expected : String) : String :=
  match evalExpr input with
  | .error (.assertionError m) => "FAIL: " ++ m
  | .error (.otherError m) => "ERROR: " ++ m
  | .ok r =>
      match evalExpr expected with
      | .error (.assertionError m) => "FAIL: " ++ m
      | .error (.otherError m) => "ERROR: " ++ m
      | .ok e =>
          if pyEq r e then "PASS"
          else "FAIL: Expected " ++ pyStr e ++ ", got " ++ pyStr r

/-- A concrete expression evaluator used to exhibit that the trailer
evaluates the expected expression as code: the source texts 2+3 and 5
differ as strings but evaluate to the same numeric value. -/
def evalDemo : String → Except PyExn PyVal
  | "2+3" => .ok (.int 5)
  | "5" => .ok (.int 5)
  | _ => .error (.otherError "NameError: name is not defined")

/-- The fixed trailer text that `compose` appends after the expected
expression. -/
def trailerTail : String :=
  "\n    assert result == expected, f\"Expected \x7bexpected\x7d, got \x7bresult\x7d\"\n    print(\"PASS\")\nexcept AssertionError as e:\n    print(f\"FAIL: \x7be\x7d\")\nexcept Exception as e:\n    print(f\"ERROR: \x7be\x7d\")\n"

/-- The list of verdicts produced by the `run_tests` loop starting at
`enumerate` index `i`: one `run_single_test` call per test case, in input
order, each against its own environment. -/
def verdicts_from (code setup_code : String) (envs : Nat → Env) :
    Nat → List TestCase → List TestResult
  | _, [] => []
  | i, t :: rest =>
      run_single_test code t setup_code (envs i) ::
        verdicts_from code setup_code envs (i + 1) rest

lemma verdicts_from_length (code setup_code : String) (envs : Nat → Env) :
    ∀ (l : List TestCase) (i : Nat),
      (verdicts_from code setup_code envs i l).length = l.length := by
  intro l
  induction l with
  | nil => intro i; rfl
  | cons t rest ih =>
      intro i
      simp [verdicts_from, ih (i + 1)]

lemma verdicts_from_get? (code setup_code : String) (envs : Nat → Env) :
    ∀ (l : List TestCase) (j i : Nat) (t : TestCase), l.get? j = some t →
      (verdicts_from code setup_code envs i l).get? j =
        some (run_single_test code t setup_code (envs (i + j))) := by
  intro l
  induction l with
  | nil => intro j i t h; simp at h
  | cons u rest ih =>
      intro j i t h
      cases j with
      | zero =>
          simp at h
          subst h
          simp [verdicts_from]
      | succ j =>
          simp [verdicts_from]
          have := ih j (i + 1) t (by simpa using h)
          simpa [Nat.add_assoc, Nat.add_comm, Nat.add_left_comm] using this

lemma run_tests_loop_spec (code setup_code : String) (envs : Nat → Env) :
    ∀ (l : List TestCase) (i : Nat) (acc : RunTestsResult),
      run_tests_loop code setup_code envs i l acc =
        ⟨acc.all_passed &&
            (verdicts_from code setup_code envs i l).all (fun v => v.passed),
          acc.test_results ++ verdicts_from code setup_code envs i l⟩ := by
  intro l
  induction l with
  | nil => intro i acc; simp [run_tests_loop, verdicts_from]
  | cons t rest ih =>
      intro i acc
      rw [run_tests_loop, ih (i + 1)]
      simp only [verdicts_from, List.all_cons, RunTestsResult.mk.injEq]
      refine ⟨?_, by simp⟩
      cases hp : (run_single_test code t setup_code (envs i)).passed <;>
        cases acc.all_passed <;> simp [hp]

lemma run_tests_eq (code setup_code : String) (envs : Nat → Env)
    (tests : List TestCase) :
    run_tests code tests setup_code envs =
      ⟨(verdicts_from code setup_code envs 0 tests).all (fun v => v.passed),
        verdicts_from code setup_code envs 0 tests⟩ := by
  rw [run_tests, run_tests_loop_spec]
  simp

lemma run_single_test_full_completed (code : String) (test : TestCase)
    (setup_code : String) (env : Env) (path stdout stderr : String)
    (hw : env.fileWrite (compose setup_code code test) = .ok path)
    (hp : env.proc path timeout_seconds = .completed stdout stderr) :
    run_single_test_full code test setup_code env =
      (if pyStartsWith (pyStrip stdout) "PASS" then
          ⟨true, "Test passed", test.hidden⟩
        else if pyStartsWith (pyStrip stdout) "FAIL" then
          ⟨false, pyStrip stdout, test.hidden⟩
        else
          ⟨false,
            if pyStrip stderr ≠ "" then pyStrip stderr
            else if pyStrip stdout ≠ "" then pyStrip stdout
            else "Unknown error",
            test.hidden⟩,
        ⟨some path, some path⟩) := by
  unfold run_single_test_full
  rw [hw]
  dsimp only
  rw [hp]

lemma run_single_test_full_timedOut (code : String) (test : TestCase)
    (setup_code : String) (env : Env) (path pOut pErr : String)
    (hw : env.fileWrite (compose setup_code code test) = .ok path)
    (hp : env.proc path timeout_seconds = .timedOut pOut pErr) :
    run_single_test_full code test setup_code env =
      (⟨false, "Timeout: Code took too long to execute", test.hidden⟩,
        ⟨some path, some path⟩) := by
  unfold run_single_test_full
  rw [hw]
  dsimp only
  rw [hp]

lemma run_single_test_full_spawnErr (code : String) (test : TestCase)
    (setup_code : String) (env : Env) (path msg : String)
    (hw : env.fileWrite (compose setup_code code test) = .ok path)
    (hp : env.proc path timeout_seconds = .spawnErr msg) :
    run_single_test_full code test setup_code env =
      (⟨false, msg, test.hidden⟩, ⟨some path, some path⟩) := by
  unfold run_single_test_full
  rw [hw]
  dsimp only
  rw [hp]

lemma run_single_test_full_errNoFile (code : String) (test : TestCase)
    (setup_code : String) (env : Env) (msg : String)
    (hw : env.fileWrite (compose setup_code code test) = .errNoFile msg) :
    run_single_test_full code test setup_code env =
      (⟨false, msg, test.hidden⟩, ⟨none, none⟩) := by
  unfold run_single_test_full
  rw [hw]

lemma run_single_test_full_errAfterCreate (code : String) (test : TestCase)
    (setup_code : String) (env : Env) (path msg : String)
    (hw : env.fileWrite (compose setup_code code test) =
      .errAfterCreate path msg) :
    run_single_test_full code test setup_code env =
      (⟨false, msg, test.hidden⟩, ⟨some path, none⟩) := by
  unfold run_single_test_full
  rw [hw]

/-- C8: for every test case and every outcome of the environment (normal
exit, timeout, spawn failure, or a failure while creating or writing the
temporary file), the hidden flag of the verdict returned by
`run_single_test` equals the hidden flag of the input test case. -/
theorem run_single_test_preserves_hidden (code : String) (test : TestCase)
    (setup_code : String) (env : Env) :
    (run_single_test code test setup_code env).hidden = test.hidden := by
  unfold run_single_test run_single_test_full
  cases env.fileWrite (compose setup_code code test) with
  | ok p =>
      dsimp only
      cases env.proc p timeout_seconds with
      | completed o e =>
          dsimp only
          split
          · rfl
          · split <;> rfl
      | timedOut a b => rfl
      | spawnErr m => rfl
  | errNoFile m => rfl
  | errAfterCreate p m => rfl

/-- C5: when the spawned process does not finish within the wall-clock
limit passed to `subprocess.run` (5 seconds), `run_single_test` returns a
non-passed verdict whose message is the fixed string
"Timeout: Code took too long to execute", for every value of the partial
output the child produced before being killed (the partial output is
discarded, not used for classification). -/
theorem run_single_test_timeout_verdict (code : String) (test : TestCase)
    (setup_code : String) (env : Env) (path pOut pErr : String)
    (hw : env.fileWrite (compose setup_code code test) = .ok path)
    (hp : env.proc path timeout_seconds = .timedOut pOut pErr) :
    run_single_test code test setup_code env =
      ⟨false, "Timeout: Code took too long to execute", test.hidden⟩ := by
  unfold run_single_test
  rw [run_single_test_full_timedOut code test setup_code env path pOut pErr
    hw hp]

/-- Witness for C5 at a concrete looping submission: the verdict is the
fixed timeout verdict and the partial output "working..." is discarded. -/
theorem run_single_test_timeout_verdict_witness :
    run_single_test "def loop():\n    while True:\n        x = 1"
      ⟨"loop()", "None", false⟩ ""
      ⟨fun _ => .ok "/tmp/judge.py",
        fun _ _ => .timedOut "working..." ""⟩ =
      ⟨false, "Timeout: Code took too long to execute", false⟩ :=
  run_single_test_timeout_verdict "def loop():\n    while True:\n        x = 1"
    ⟨"loop()", "None", false⟩ ""
    ⟨fun _ => .ok "/tmp/judge.py", fun _ _ => .timedOut "working..." ""⟩
    "/tmp/judge.py" "working..." "" rfl rfl

/-- C9: `run_single_test` is total toward its caller: an exception raised
while constructing the temporary file, while writing it, or while spawning
the child process is caught by the `except Exception` clause and turned
into a verdict with `passed = false` whose message is the exception text;
no environment outcome makes the function propagate an exception. -/
theorem run_single_test_total_catches_exceptions (code : String)
    (test : TestCase) (setup_code : String) (env : Env)
    (msg path : String) :
    (env.fileWrite (compose setup_code code test) = .errNoFile msg →
      run_single_test code test setup_code env = ⟨false, msg, test.hidden⟩)
    ∧ (env.fileWrite (compose setup_code code test) =
          .errAfterCreate path msg →
      run_single_test code test setup_code env = ⟨false, msg, test.hidden⟩)
    ∧ (env.fileWrite (compose setup_code code test) = .ok path →
        env.proc path timeout_seconds = .spawnErr msg →
      run_single_test code test setup_code env =
        ⟨false, msg, test.hidden⟩) := by
  refine ⟨fun hw => ?_, fun hw => ?_, fun hw hp => ?_⟩
  · unfold run_single_test
    rw [run_single_test_full_errNoFile code test setup_code env msg hw]
  · unfold run_single_test
    rw [run_single_test_full_errAfterCreate code test setup_code env path
      msg hw]
  · unfold run_single_test
    rw [run_single_test_full_spawnErr code test setup_code env path msg
      hw hp]

/-- Witness for C9 at a concrete environment in which the child process
cannot be spawned. -/
theorem run_single_test_total_catches_exceptions_witness :
    run_single_test "def f(): return 1" ⟨"f()", "1", false⟩ ""
      ⟨fun _ => .ok "/tmp/a.py",
        fun _ _ => .spawnErr "No such file or directory: python3"⟩ =
      ⟨false, "No such file or directory: python3", false⟩ :=
  (run_single_test_total_catches_exceptions "def f(): return 1"
    ⟨"f()", "1", false⟩ ""
    ⟨fun _ => .ok "/tmp/a.py",
      fun _ _ => .spawnErr "No such file or directory: python3"⟩
    "No such file or directory: python3" "/tmp/a.py").2.2 rfl rfl

/-- C1 counterexample: at an infrastructure failure (the child process
cannot be spawned), `run_single_test` does not propagate a system-level
error; it returns an ordinary verdict with `passed = false`, refuting the
claim that such failures are never converted into a failed verdict. -/
theorem infra_failure_returns_failed_verdict_cex :
    run_single_test "def add(a, b): return a + b" ⟨"add(2, 3)", "5", false⟩
      ""
      ⟨fun _ => .ok "/tmp/judge.py",
        fun _ _ => .spawnErr "could not spawn python3"⟩ =
      ⟨false, "could not spawn python3", false⟩
    ∧ (run_single_test "def add(a, b): return a + b"
        ⟨"add(2, 3)", "5", false⟩ ""
        ⟨fun _ => .ok "/tmp/judge.py",
          fun _ _ => .spawnErr "could not spawn python3"⟩).passed =
      false := ⟨rfl, rfl⟩

/-- C1 amended: an infrastructure failure during judging (the temporary
source file cannot be created or written, or the child process cannot be
spawned) is caught by `run_single_test` and returned to the caller as a
test-level verdict with `passed = false` whose message is the exception
text; it is not propagated as a system-level error. -/
theorem run_single_test_infra_failure_caught (code : String)
    (test : TestCase) (setup_code : String) (env : Env)
    (msg path : String) :
    (env.fileWrite (compose setup_code code test) = .errNoFile msg →
      (run_single_test code test setup_code env).passed = false
      ∧ (run_single_test code test setup_code env).message = msg)
    ∧ (env.fileWrite (compose setup_code code test) =
          .errAfterCreate path msg →
      (run_single_test code test setup_code env).passed = false
      ∧ (run_single_test code test setup_code env).message = msg)
    ∧ (env.fileWrite (compose setup_code code test) = .ok path →
        env.proc path timeout_seconds = .spawnErr msg →
      (run_single_test code test setup_code env).passed = false
      ∧ (run_single_test code test setup_code env).message = msg) := by
  refine ⟨fun hw => ?_, fun hw => ?_, fun hw hp => ?_⟩
  · unfold run_single_test
    rw [run_single_test_full_errNoFile code test setup_code env msg hw]
    exact ⟨rfl, rfl⟩
  · unfold run_single_test
    rw [run_single_test_full_errAfterCreate code test setup_code env path
      msg hw]
    exact ⟨rfl, rfl⟩
  · unfold run_single_test
    rw [run_single_test_full_spawnErr code test setup_code env path msg
      hw hp]
    exact ⟨rfl, rfl⟩

/-- Witness for the amended C1 at a concrete environment in which the
temporary file cannot be created. -/
theorem run_single_test_infra_failure_caught_witness :
    (run_single_test "def f(): return 1" ⟨"f()", "1", false⟩ ""
      ⟨fun _ => .errNoFile "Read-only file system",
        fun _ _ => .completed "" ""⟩).passed = false
    ∧ (run_single_test "def f(): return 1" ⟨"f()", "1", false⟩ ""
      ⟨fun _ => .errNoFile "Read-only file system",
        fun _ _ => .completed "" ""⟩).message = "Read-only file system" :=
  (run_single_test_infra_failure_caught "def f(): return 1"
    ⟨"f()", "1", false⟩ ""
    ⟨fun _ => .errNoFile "Read-only file system",
      fun _ _ => .completed "" ""⟩
    "Read-only file system" "/tmp/a.py").1 rfl

/-- C10: when the spawned process exits normally, `run_single_test`
classifies purely by marker tests at the start of the stripped standard
output: the verdict passes exactly when the stripped output starts with
"PASS"; when it instead starts with "FAIL" the verdict is failed with the
full stripped output as message; consequently text printed to standard
output before the marker changes the classification, exhibited by a run
whose output carries the PASS marker after a debug line and is classified
as not passed. -/
theorem run_single_test_marker_classification (code : String)
    (test : TestCase) (setup_code : String) (env : Env)
    (path stdout stderr : String)
    (hw : env.fileWrite (compose setup_code code test) = .ok path)
    (hp : env.proc path timeout_seconds = .completed stdout stderr) :
    ((run_single_test code test setup_code env).passed = true ↔
        pyStartsWith (pyStrip stdout) "PASS" = true)
    ∧ (pyStartsWith (pyStrip stdout) "PASS" = false →
        pyStartsWith (pyStrip stdout) "FAIL" = true →
        run_single_test code test setup_code env =
          ⟨false, pyStrip stdout, test.hidden⟩)
    ∧ (run_single_test "print(\"debug\")\ndef add(a, b): return a + b"
        ⟨"add(2, 3)", "5", false⟩ ""
        ⟨fun _ => .ok "/tmp/judge.py",
          fun _ _ => .completed "debug\nPASS" ""⟩).passed = false := by
  unfold run_single_test
  rw [run_single_test_full_completed code test setup_code env path stdout
    stderr hw hp]
  refine ⟨?_, ?_, by decide⟩
  · cases hA : pyStartsWith (pyStrip stdout) "PASS" <;> simp [hA]
    split <;> simp
  · intro h1 h2
    simp [h1, h2]

/-- Witness for C10 at a concrete run whose stripped output starts with
the FAIL marker. -/
theorem run_single_test_marker_classification_witness :
    run_single_test "def add(a, b): return a - b" ⟨"add(2, 3)", "5", false⟩
      ""
      ⟨fun _ => .ok "/tmp/judge.py",
        fun _ _ => .completed "FAIL: Expected 5, got -1\n" ""⟩ =
      ⟨false, "FAIL: Expected 5, got -1", false⟩ :=
  ((run_single_test_marker_classification "def add(a, b): return a - b"
    ⟨"add(2, 3)", "5", false⟩ ""
    ⟨fun _ => .ok "/tmp/judge.py",
      fun _ _ => .completed "FAIL: Expected 5, got -1\n" ""⟩
    "/tmp/judge.py" "FAIL: Expected 5, got -1\n" "" rfl rfl).2.1
    (by decide) (by decide)).trans (by decide)

/-- C6: when the process exits normally and the stripped standard output
carries neither the PASS marker nor the FAIL marker at its start, the
verdict is not passed and its message is the stripped error channel if
non-empty, otherwise the stripped output channel if non-empty, otherwise
the fixed string "Unknown error". -/
theorem run_single_test_error_channel_fallback (code : String)
    (test : TestCase) (setup_code : String) (env : Env)
    (path stdout stderr : String)
    (hw : env.fileWrite (compose setup_code code test) = .ok path)
    (hp : env.proc path timeout_seconds = .completed stdout stderr)
    (h1 : pyStartsWith (pyStrip stdout) "PASS" = false)
    (h2 : pyStartsWith (pyStrip stdout) "FAIL" = false) :
    run_single_test code test setup_code env =
      ⟨false,
        if pyStrip stderr ≠ "" then pyStrip stderr
        else if pyStrip stdout ≠ "" then pyStrip stdout
        else "Unknown error",
        test.hidden⟩ := by
  unfold run_single_test
  rw [run_single_test_full_completed code test setup_code env path stdout
    stderr hw hp]
  simp [h1, h2]

/-- Witness for C6 at a concrete submission with a syntax error: nothing
is printed on standard output, the interpreter reports on the error
channel, and the verdict is not passed with that non-empty report as its
message. -/
theorem run_single_test_error_channel_fallback_witness :
    run_single_test "def add(a, b) return a + b" ⟨"add(2, 3)", "5", false⟩
      ""
      ⟨fun _ => .ok "/tmp/judge.py",
        fun _ _ => .completed "" "SyntaxError: invalid syntax"⟩ =
      ⟨false, "SyntaxError: invalid syntax", false⟩
    ∧ "SyntaxError: invalid syntax" ≠ "" :=
  ⟨(run_single_test_error_channel_fallback "def add(a, b) return a + b"
      ⟨"add(2, 3)", "5", false⟩ ""
      ⟨fun _ => .ok "/tmp/judge.py",
        fun _ _ => .completed "" "SyntaxError: invalid syntax"⟩
      "/tmp/judge.py" "" "SyntaxError: invalid syntax" rfl rfl
      (by decide) (by decide)).trans (by decide),
    by decide⟩

/-- C7 (evaluation of the cleanup behavior): when the temporary file is
created and its path recorded, the `finally` block unlinks it on the
normal-exit, timeout and spawn-failure paths alike; but when the write of
the composed code raises after the file was created, `temp_path` was never
assigned, the guard of the `finally` block fails, and the created file is
not deleted. -/
theorem temp_file_cleanup_and_leak (code setup_code : String)
    (test : TestCase) (path msg stdout stderr pOut pErr : String)
    (p : String → Nat → ProcOutcome) :
    (run_single_test_full code test setup_code
        ⟨fun _ => .ok path, fun _ _ => .completed stdout stderr⟩).2 =
      ⟨some path, some path⟩
    ∧ (run_single_test_full code test setup_code
        ⟨fun _ => .ok path, fun _ _ => .timedOut pOut pErr⟩).2 =
      ⟨some path, some path⟩
    ∧ (run_single_test_full code test setup_code
        ⟨fun _ => .ok path, fun _ _ => .spawnErr msg⟩).2 =
      ⟨some path, some path⟩
    ∧ (run_single_test_full code test setup_code
        ⟨fun _ => .errAfterCreate path msg, p⟩).2 =
      ⟨some path, none⟩ :=
  ⟨rfl, rfl, rfl, rfl⟩

/-- C2: `run_tests` returns exactly one verdict per input test case, in
input order (the verdict at each index is the `run_single_test` verdict of
the test case at that index); `all_passed` equals the conjunction of the
passed flags of the returned verdicts; and an empty test-case list yields
`all_passed = true` with an empty verdict list. -/
theorem run_tests_verdict_shape (code setup_code : String)
    (tests : List TestCase) (envs : Nat → Env) :
    (run_tests code tests setup_code envs).test_results.length = tests.length
    ∧ (run_tests code tests setup_code envs).all_passed =
        (run_tests code tests setup_code envs).test_results.all
          (fun v => v.passed)
    ∧ (∀ (i : Nat) (t : TestCase), tests.get? i = some t →
        (run_tests code tests setup_code envs).test_results.get? i =
          some (run_single_test code t setup_code (envs i)))
    ∧ run_tests code [] setup_code envs = ⟨true, []⟩ := by
  rw [run_tests_eq]
  refine ⟨verdicts_from_length code setup_code envs tests 0, ?_, ?_, rfl⟩
  · simp [List.all_eq]
  · intro i t h
    have := verdicts_from_get? code setup_code envs tests i 0 t h
    simpa using this

/-- Witness for C2: in a two-test submission whose first test fails, the
verdict list still has an entry at index 1 equal to the verdict of the
second test case. -/
theorem run_tests_verdict_shape_witness :
    ([⟨"add(1, 2)", "3", false⟩, ⟨"add(0, 0)", "0", false⟩] :
        List TestCase).get? 1 = some ⟨"add(0, 0)", "0", false⟩
    ∧ (run_tests "def add(a, b): return 0"
        [⟨"add(1, 2)", "3", false⟩, ⟨"add(0, 0)", "0", false⟩] ""
        (fun _ => ⟨fun _ => .ok "/tmp/judge.py",
          fun _ _ => .completed "FAIL: Expected 3, got 0" ""⟩)).test_results.get?
        1 =
      some (run_single_test "def add(a, b): return 0"
        ⟨"add(0, 0)", "0", false⟩ ""
        (⟨fun _ => .ok "/tmp/judge.py",
          fun _ _ => .completed "FAIL: Expected 3, got 0" ""⟩ : Env)) :=
  ⟨rfl,
    (run_tests_verdict_shape "def add(a, b): return 0" ""
      [⟨"add(1, 2)", "3", false⟩, ⟨"add(0, 0)", "0", false⟩]
      (fun _ => ⟨fun _ => .ok "/tmp/judge.py",
        fun _ _ => .completed "FAIL: Expected 3, got 0" ""⟩)).2.2.1 1
      ⟨"add(0, 0)", "0", false⟩ rfl⟩

/-- C4: `run_tests` evaluates every test case (the verdict list always has
one entry per test case, with no short-circuit on earlier failures), and
the verdict at position `i` is exactly the `run_single_test` verdict of
the test case at position `i` against its own process environment; in
particular it is unchanged when every other test case and every other
environment entry is replaced arbitrarily. -/
theorem run_tests_no_short_circuit (code setup_code : String)
    (tests : List TestCase) (envs : Nat → Env) (i : Nat) (t : TestCase)
    (h : tests.get? i = some t) :
    (run_tests code tests setup_code envs).test_results.length = tests.length
    ∧ (run_tests code tests setup_code envs).test_results.get? i =
        some (run_single_test code t setup_code (envs i))
    ∧ (∀ (tests2 : List TestCase) (envs2 : Nat → Env),
        tests2.get? i = some t → envs2 i = envs i →
        (run_tests code tests2 setup_code envs2).test_results.get? i =
          (run_tests code tests setup_code envs).test_results.get? i) := by
  rw [run_tests_eq]
  have hget : ∀ (l : List TestCase) (e : Nat → Env), l.get? i = some t →
      (verdicts_from code setup_code e 0 l).get? i =
        some (run_single_test code t setup_code (e i)) := by
    intro l e hl
    have := verdicts_from_get? code setup_code e l i 0 t hl
    simpa using this
  refine ⟨verdicts_from_length code setup_code envs tests 0,
    hget tests envs h, ?_⟩
  intro tests2 envs2 h2 henv
  rw [run_tests_eq]
  rw [hget tests2 envs2 h2, hget tests envs h, henv]

/-- Witness for C4: in a two-test submission whose first test errors, the
second test case still gets its own verdict, and that verdict agrees with
the one computed in a submission where the first test case is different. -/
theorem run_tests_no_short_circuit_witness :
    ([⟨"boom()", "1", false⟩, ⟨"add(2, 3)", "5", true⟩] :
        List TestCase).get? 1 = some ⟨"add(2, 3)", "5", true⟩
    ∧ (run_tests "def add(a, b): return a + b"
        [⟨"boom()", "1", false⟩, ⟨"add(2, 3)", "5", true⟩] ""
        (fun i => ⟨fun _ => .ok "/tmp/judge.py",
          fun _ _ => .completed (if i = 0 then "" else "PASS")
            (if i = 0 then "NameError: name boom is not defined"
              else "")⟩)).test_results.get? 1 =
      some (run_single_test "def add(a, b): return a + b"
        ⟨"add(2, 3)", "5", true⟩ ""
        ((fun i => ⟨fun _ => .ok "/tmp/judge.py",
          fun _ _ => .completed (if i = 0 then "" else "PASS")
            (if i = 0 then "NameError: name boom is not defined"
              else "")⟩ : Nat → Env) 1)) :=
  ⟨rfl,
    (run_tests_no_short_circuit "def add(a, b): return a + b" ""
      [⟨"boom()", "1", false⟩, ⟨"add(2, 3)", "5", true⟩]
      (fun i => ⟨fun _ => .ok "/tmp/judge.py",
        fun _ _ => .completed (if i = 0 then "" else "PASS")
          (if i = 0 then "NameError: name boom is not defined"
            else "")⟩) 1 ⟨"add(2, 3)", "5", true⟩ rfl).2.1⟩

/-- C3 (amended): the executed unit is composed as setup code, then
source code, then the fixed trailer, with the input and expected
expressions spliced in as code; the trailer evaluates both expressions
(not their source texts) and compares the resulting values with Python
equality, printing the PASS marker when they compare equal, the FAIL
marker carrying both the expected and the actual value when they compare
unequal, and the ERROR marker carrying the exception description when
evaluation raises a non-assertion exception (an AssertionError raised
during evaluation is printed with the FAIL marker); two expression texts
that differ as strings but evaluate to the same value yield the PASS
marker. -/
theorem compose_and_trailer_semantics (setup_code code : String)
    (test : TestCase) (ev : String → Except PyExn PyVal)
    (r e : PyVal) (m : String) :
    compose setup_code code test =
      "\n" ++ setup_code ++ "\n\n" ++ code ++
        ("\n\n# Test execution\ntry:\n    result = " ++ test.input ++
          ("\n    expected = " ++ test.expected ++ trailerTail))
    ∧ (ev test.input = .ok r → ev test.expected = .ok e →
        pyEq r e = true →
        trailer_sem ev test.input test.expected = "PASS")
    ∧ (ev test.input = .ok r → ev test.expected = .ok e →
        pyEq r e = false →
        trailer_sem ev test.input test.expected =
          "FAIL: Expected " ++ pyStr e ++ ", got " ++ pyStr r)
    ∧ (ev test.input = .error (.otherError m) →
        trailer_sem ev test.input test.expected = "ERROR: " ++ m)
    ∧ (ev test.input = .ok r → ev test.expected = .error (.otherError m) →
        trailer_sem ev test.input test.expected = "ERROR: " ++ m)
    ∧ (ev test.input = .error (.assertionError m) →
        trailer_sem ev test.input test.expected = "FAIL: " ++ m)
    ∧ (ev test.input = .ok r →
        ev test.expected = .error (.assertionError m) →
        trailer_sem ev test.input test.expected = "FAIL: " ++ m)
    ∧ trailer_sem evalDemo "2+3" "5" = "PASS" := by
  refine ⟨?_, ?_, ?_, ?_, ?_, ?_, ?_, rfl⟩
  · simp [compose, trailerTail, String.append_assoc]
  · intro hi hx hq
    unfold trailer_sem
    rw [hi, hx]
    simp [hq]
  · intro hi hx hq
    unfold trailer_sem
    rw [hi, hx]
    simp [hq]
  · intro hi
    unfold trailer_sem
    rw [hi]
  · intro hi hx
    unfold trailer_sem
    rw [hi, hx]
  · intro hi
    unfold trailer_sem
    rw [hi]
  · intro hi hx
    unfold trailer_sem
    rw [hi, hx]

/-- Witness for the amended C3: with an evaluator sending both 2+3 and 5
to the integer value 5, the trailer prints PASS although the two source
texts differ; with evaluation of the input raising a NameError, the
trailer prints the ERROR marker with the exception text. -/
theorem compose_and_trailer_semantics_witness :
    trailer_sem evalDemo "2+3" "5" = "PASS"
    ∧ trailer_sem evalDemo "boom()" "5" =
        "ERROR: NameError: name is not defined" :=
  ⟨(compose_and_trailer_semantics "" "" ⟨"2+3", "5", false⟩ evalDemo
      (.int 5) (.int 5) "").2.1 rfl rfl rfl,
    (compose_and_trailer_semantics "" "" ⟨"boom()", "5", false⟩ evalDemo
      (.int 5) (.int 5) "NameError: name is not defined").2.2.2.1 rfl⟩

/-- C3 counterexample: an AssertionError raised while evaluating the
input expression is reported with the FAIL marker, not the ERROR marker,
refuting the claim that the trailer emits the error marker whenever
evaluation raises. -/
theorem trailer_assertion_during_eval_cex :
    trailer_sem (fun _ => .error (.assertionError "boom")) "f()" "5" =
      "FAIL: boom"
    ∧ pyStartsWith "FAIL: boom" "ERROR" = false := ⟨rfl, rfl⟩
